import Mathlib

/-!
Shallow embedding of `src/create_report.py` (extension-reports): a one-shot
pipeline that reads a CSV of per-ZIP request counts and a GeoJSON of ZIP
polygons, joins them, builds per-layer color scales and renders an HTML map
with a layer-switchable legend.  Machine integers of the program are pandas
int64 counts, modelled as `Int`; identifiers are strings.
-/

set_option maxHeartbeats 1000000

namespace ExtReports

/-! ### String helpers modelling the pandas string operations used by the code -/

/-- Whitespace stripping as performed by pandas `str.strip()` (line 68). -/
def stripWs (s : String) : String :=
  String.mk (((s.data.dropWhile Char.isWhitespace).reverse.dropWhile Char.isWhitespace).reverse)

/-- Lower-casing of an identifier, used only to state the spec's
case-insensitive matching rule. -/
def lowerStr (s : String) : String := String.mk (s.data.map Char.toLower)

/-- True when the string is a nonempty run of decimal digits. -/
def isDigits (s : String) : Bool := !s.isEmpty && s.data.all Char.isDigit

/-- Decimal value of a digit string. -/
def digitsToNat (s : String) : Nat := s.data.foldl (fun n c => 10 * n + (c.toNat - 48)) 0

/-! ### Data model -/

/-- One row of the request table: the ZIP identifier (the DataFrame index
label) plus the numeric cells, keyed by column name. -/
structure Row where
  id : String
  cells : String → Int

/-- The in-memory request table: a pandas DataFrame with a string index. -/
structure Table where
  columns : List String
  rows : List Row

/-- A raw GeoJSON property value: JSON strings load as strings, JSON numbers
load as (int64) numbers. -/
inductive PValue
  | pstr (s : String)
  | pint (n : Int)
deriving DecidableEq

/-- Line 54, `gdf["ZIPNUM"].astype(str)`: string conversion of a property
column.  No trimming happens; a numeric property prints its decimal digits. -/
def astypeStr : PValue → String
  | .pstr s => s
  | .pint n => toString n

/-- One geometry feature: the raw `ZIPNUM` property plus a tag standing for
the polygon payload (so duplicate features stay distinguishable). -/
structure Feature where
  zipnum : PValue
  tag : Nat
deriving DecidableEq

/-- The loaded geometry file: the property columns present and the features. -/
structure GeoFile where
  columns : List String
  features : List Feature

/-- Raw CSV content as handed to `pd.read_csv(csv_path, index_col=0)`: the
first (index) column as raw field strings, the remaining column names, and
each row's numeric cells keyed by column name. -/
structure CsvData where
  rawIndex : List String
  columns : List String
  values : List (String → Int)

/-! ### Loader (lines 50-55) -/

/-- Dtype inference of `pd.read_csv(..., index_col=0)` on the index column:
a column made entirely of digit strings is parsed as int64, which drops
leading zeros; any other column keeps the raw field strings.  Line 55 then
applies `astype(str)`, mapping the int64 labels back to digit strings. -/
def readCsvIndex (raw : List String) : List String :=
  if raw.all isDigits then raw.map (fun s => toString (digitsToNat s)) else raw

/-- The table produced by lines 50 and 55. -/
def readTable (c : CsvData) : Table :=
  { columns := c.columns
    rows := (readCsvIndex c.rawIndex).zipWith (fun i v => { id := i, cells := v }) c.values }

/-- Errors that the loading phase can surface.  `keyError` is the Python
`KeyError` raised by a missing DataFrame column (line 54), `parserError`
the pandas `ParserError` raised by a malformed CSV (line 50).
`inputFormatError` is the error type named by the specification; it is
included so that statements about it can be written, but the code never
constructs it. -/
inductive PyError
  | keyError (k : String)
  | parserError
  | inputFormatError
deriving DecidableEq

/-- Lines 50-55 as a fallible loader: a malformed CSV fails first (line 50)
with the parser's error; then the `ZIPNUM` column access of line 54 raises
`KeyError` when the geometry collection lacks that property. -/
def loadInputs : Option CsvData → GeoFile → Except PyError (Table × List Feature)
  | none, _ => .error .parserError
  | some csv, geo =>
      if geo.columns.contains "ZIPNUM" then .ok (readTable csv, geo.features)
      else .error (.keyError "ZIPNUM")

/-- The error component of `loadInputs`, for decidable statements. -/
def loadError (c : Option CsvData) (g : GeoFile) : Option PyError :=
  match loadInputs c g with
  | .error e => some e
  | .ok _ => none

/-! ### Aggregator (lines 57-69, 84-92) -/

/-- Line 59: the period columns when "Aggregate" is absent from the input. -/
def monthsNoAgg (t : Table) : List String :=
  t.columns.filter (fun c => !(c == "Unknown"))

/-- Line 62: the period columns when "Aggregate" is present in the input. -/
def monthsWithAgg (t : Table) : List String :=
  t.columns.filter (fun c => !(c == "Unknown") && !(c == "Aggregate"))

/-- Lines 57-62: derive the "Aggregate" column as the row-wise sum over the
period columns when the CSV did not supply one. -/
def withAggregate (t : Table) : Table :=
  if t.columns.contains "Aggregate" then t
  else
    { columns := t.columns ++ ["Aggregate"]
      rows := t.rows.map (fun r =>
        { id := r.id
          cells := fun c =>
            if c = "Aggregate" then ((monthsNoAgg t).map r.cells).sum else r.cells c }) }

/-- Line 65: the data layers are "Aggregate" followed by the months of the
branch taken at lines 58-62. -/
def data_layers (t : Table) : List String :=
  if t.columns.contains "Aggregate" then "Aggregate" :: monthsWithAgg t
  else "Aggregate" :: monthsNoAgg t

/-- Line 68: drop the rows whose stripped identifier is exactly "Unknown".
The comparison `df.index.to_series().str.strip().eq("Unknown")` strips
whitespace but compares case-sensitively. -/
def df_no_unknown (t : Table) : Table :=
  { t with rows := t.rows.filter (fun r => !(stripWs r.id == "Unknown")) }

/-- pandas `Series.max()`: `none` models the NaN produced on an empty series. -/
def seriesMax : List Int → Option Int
  | [] => none
  | x :: xs => some (xs.foldl max x)

/-- Line 69: the per-layer maximum over the Unknown-stripped frame. -/
def max_vals (t : Table) (col : String) : Option Int :=
  seriesMax ((df_no_unknown t).rows.map (fun r => r.cells col))

/-- Lines 86-90: the domain of the branca `LinearColormap` as the code
constructs it (`vmin=1`, `vmax=max_vals[col]`). -/
structure LinearColormapModel where
  vmin : Int
  vmax : Option Int
deriving DecidableEq

/-- The colormap built for a layer at lines 85-92. -/
def colormapOf (t : Table) (col : String) : LinearColormapModel :=
  { vmin := 1, vmax := max_vals t col }

/-! ### Merger (lines 97-103) -/

/-- One row of the merged GeoDataFrame: a geometry feature with the table's
columns attached. -/
structure MergedRow where
  feature : Feature
  cells : String → Int

/-- Lines 97-100: `gdf.merge(df, how="left", left_on="ZIPNUM",
right_index=True)` followed by `fillna(0)` on every numeric column.  Every
feature is kept (duplicated when several index labels match); a feature
without a matching row gets NaN cells which the fillna turns into 0 — all
table columns hold numeric counts, so every cell of such a row is 0. -/
def mergeLeft (gdf : List Feature) (t : Table) : List MergedRow :=
  gdf.flatMap (fun f =>
    if (t.rows.filter (fun r => r.id == astypeStr f.zipnum)).isEmpty then
      [{ feature := f, cells := fun _ => 0 }]
    else
      (t.rows.filter (fun r => r.id == astypeStr f.zipnum)).map
        (fun r => { feature := f, cells := r.cells }))

/-! ### Renderer (lines 122-163) -/

/-- A polygon fill: either the literal `"white"` zero sentinel of line 130,
or the colormap of the layer applied to the value (the gradient runs over
blues and is a different string from `"white"`). -/
inductive FillColor
  | white
  | scaled (vmin : Int) (vmax : Option Int) (value : Int)
deriving DecidableEq

/-- Lines 129-130: `color = "white" if is_zero else colormaps[layer_name](value)`. -/
def polygonFillColor (cm : LinearColormapModel) (value : Int) : FillColor :=
  if value = 0 then .white else .scaled cm.vmin cm.vmax value

/-- What the loops at lines 126-161 emit for one region of one layer: the
styled polygon's fill and the integer label placed at the centroid. -/
structure RenderedRegion where
  zip : String
  fill : FillColor
  label : Int
deriving DecidableEq

/-- One rendered entry per merged row for a given layer (lines 126-161). -/
def renderLayer (t : Table) (merged : List MergedRow) (layer : String) : List RenderedRegion :=
  merged.map (fun mr =>
    { zip := astypeStr mr.feature.zipnum
      fill := polygonFillColor (colormapOf t layer) (mr.cells layer)
      label := mr.cells layer })

/-! ### Legend and script emission (lines 74-81, 165-196, 240-256) -/

/-- Lines 168 and 202: `df.loc["Unknown", layer]` guarded by
`if "Unknown" in df.index else 0` — an exact, untrimmed index lookup. -/
def unknown_count (t : Table) (layer : String) : Int :=
  match t.rows.find? (fun r => r.id == "Unknown") with
  | some r => r.cells layer
  | none => 0

/-- How a pandas int64 column maximum prints: its decimal digits, or "nan"
for the NaN of an empty frame. -/
def maxStr : Option Int → String
  | some v => toString v
  | none => "nan"

/-- Lines 74-81, `simulate_opacity`: the floating-point RGB blend against
white is abstracted as a deterministic tag of the color and the alpha in
percent (the claims about the emitted document do not depend on the float
arithmetic, only on the blend being a pure function of its inputs). -/
def simulate_opacity (hex_color : String) (alphaPct : Nat) : String :=
  "rgbBlend(" ++ hex_color ++ "," ++ toString alphaPct ++ ")"

/-- A branca colormap lookup `colormaps[layer](v)` at a printed value:
abstracted as a deterministic tag of the domain and the value (the library
interpolates float RGB between the three blue stops). -/
def colormapColor (cm : LinearColormapModel) (v : String) : String :=
  "cmap[" ++ toString cm.vmin ++ "," ++ maxStr cm.vmax ++ "](" ++ v ++ ")"

/-- Lines 174-190: the SVG legend fragment of one layer, after the
`.replace("\n", "")` the code applies to the f-string. -/
def svg_legend (layer_name start_color end_color maxS : String) : String :=
  "<div style='line-height:1.3'><b>Requests per ZIP Code</b><br>" ++
  "<svg width=\"100%\" height=\"20\"><defs>" ++
  "<linearGradient id=\"grad_" ++ layer_name ++ "\" x1=\"0%\" y1=\"0%\" x2=\"100%\" y2=\"0%\">" ++
  "<stop offset=\"0%\" stop-color=\"" ++ start_color ++ "\"/>" ++
  "<stop offset=\"100%\" stop-color=\"" ++ end_color ++ "\"/>" ++
  "</linearGradient></defs>" ++
  "<rect width=\"100%\" height=\"20\" fill=\"url(#grad_" ++ layer_name ++ ")\"/></svg>" ++
  "<div style=\"display:flex; justify-content:space-between\">" ++
  "<span>1</span><span>" ++ maxS ++ "</span></div></div>"

/-- Lines 192-196: one accumulated block of the legend-switching script.
`eventVar` is "e" in the handler body and, after the textual
`replace("e.name", "event.name")` of line 251, "event" in the on-load copy. -/
def legend_js_entry (eventVar layer_name svg : String) (ucount : Int) : String :=
  "if (" ++ eventVar ++ ".name === \"" ++ layer_name ++ "\") \x7b " ++
  "document.getElementById('dynamic-legend').innerHTML = `" ++ svg ++
  "<div><b>Unknown ZIPs:</b> " ++ toString ucount ++ "</div>`; \x7d "

/-- The SVG fragment built for one layer inside the loop (lines 170-190). -/
def layer_svg (t : Table) (layer : String) : String :=
  svg_legend layer
    (simulate_opacity (colormapColor (colormapOf t layer) "1") 70)
    (simulate_opacity (colormapColor (colormapOf t layer) (maxStr (max_vals t layer))) 70)
    (maxStr (max_vals t layer))

/-- The `legend_js` accumulator after the loop over `data_layers`. -/
def legend_js_of (t : Table) (eventVar : String) : String :=
  String.join ((data_layers t).map
    (fun layer => legend_js_entry eventVar layer (layer_svg t layer) (unknown_count t layer)))

/-- branca's `get_name()`: the element's class-name piece joined with the
random `uuid4().hex` identifier assigned to the element at construction.
Every folium element of the saved document — the map (line 108), the tile
layer (line 109), each layer's feature group (line 123), every per-region
GeoJson (line 132) and its tooltip (line 140), every marker (line 158) and
div icon (line 160), and the layer control (line 237) — embeds its own such
name in the output. -/
def elementName (kind uuidHex : String) : String := kind ++ "_" ++ uuidHex

/-- Lines 243-254: the interactivity script, with the literal braces of the
JS source. -/
def js_script (map_var legend_js_on legend_js_init initial_layer : String) : String :=
  "<script> window.onload = function() \x7b const map = " ++ map_var ++
  "; map.on('baselayerchange', function(e) \x7b " ++ legend_js_on ++
  " \x7d); const event = \x7b name: \"" ++ initial_layer ++ "\" \x7d; " ++
  legend_js_init ++ " \x7d; </script>"

/-- A branca `linear.Blues_09.scale(1, max)` color lookup (line 203):
abstracted, like `colormapColor`, as a deterministic tag of the scaled
domain and the value. -/
def blues09Color (vmaxS v : String) : String :=
  "blues09[1," ++ vmaxS ++ "](" ++ v ++ ")"

/-- Lines 207-223: the initial legend content for the "Aggregate" layer,
built from the `Blues_09` scale of line 203 (same SVG shape as the per-layer
fragments; insignificant whitespace is not modelled). -/
def init_legend (t : Table) : String :=
  svg_legend "Aggregate"
    (simulate_opacity (blues09Color (maxStr (max_vals t "Aggregate")) "1") 70)
    (simulate_opacity
      (blues09Color (maxStr (max_vals t "Aggregate")) (maxStr (max_vals t "Aggregate"))) 70)
    (maxStr (max_vals t "Aggregate"))

/-- Lines 225-230: the fixed legend container (its `dynamic-legend` id is a
literal, not a generated name) holding the initial legend and the initial
Unknown count of line 202. -/
def legend_html_of (t : Table) : String :=
  "<div id=\"dynamic-legend\" style=\"position: fixed; bottom: 10px; right: 10px; z-index: 9999; background: white; padding: 10px; border:2px solid gray; border-radius: 4px;\">" ++
  init_legend t ++
  "<div><b>Unknown ZIPs:</b> " ++ toString (unknown_count t "Aggregate") ++ "</div></div>"

/-- One folium element of the saved document: the class-name piece of its
generated name, and the input-determined body folium serializes for it.  The
surrounding leaflet boilerplate is fixed text and is folded into the body. -/
structure DocElement where
  kind : String
  payload : String

/-- Line 130 as folium serializes it: the literal "white" for a zero value,
otherwise the layer colormap's color at the value. -/
def fillColorStr (cm : LinearColormapModel) (v : Int) : String :=
  if v = 0 then "white" else colormapColor cm (toString v)

/-- The elements one pass of the layer loop (lines 122-163) constructs, in
order: the feature group, then per merged row a GeoJson element (carrying
the fill style of lines 134-139 and the tooltip of lines 140-144 — the
modelled geometry has no display-name property, so the tooltip shows the
"Unknown" fallback of line 142), then per merged row the count marker and
its div icon (lines 155-161). -/
def layer_elements (t : Table) (merged : List MergedRow) (layer : String) : List DocElement :=
  { kind := "feature_group", payload := layer } ::
  (merged.flatMap (fun mr =>
    [{ kind := "geo_json",
       payload := fillColorStr (colormapOf t layer) (mr.cells layer) },
     { kind := "tooltip",
       payload := "<b>Zip Code:</b> " ++ astypeStr mr.feature.zipnum ++
         "<br><b>Zip Name:</b> Unknown<br><b>Requests:</b> " ++ toString (mr.cells layer) }]) ++
   merged.flatMap (fun mr =>
    [{ kind := "marker", payload := toString (mr.cells layer) },
     { kind := "div_icon",
       payload := "<div style='font-size:10pt;font-weight:bold'>" ++
         toString (mr.cells layer) ++ "</div>" }]))

/-- Every named element of the saved document in construction order: the map
(line 108), the tile layer (line 109), the per-layer elements (lines
122-163), and the layer control (line 237). -/
def doc_elements (t : Table) (merged : List MergedRow) : List DocElement :=
  { kind := "map", payload := "L.map center [35.8, -78.7] zoom 10" } ::
  { kind := "tile_layer", payload := "openstreetmap" } ::
  ((data_layers t).flatMap (fun layer => layer_elements t merged layer) ++
   [{ kind := "layer_control", payload := "collapsed false" }])

/-- How one element appears in the saved document: its generated name — the
only place its random identifier occurs — applied to its input-determined
body. -/
def render_element (e : DocElement) (uuidHex : String) : String :=
  "var " ++ elementName e.kind uuidHex ++ " = " ++ e.payload ++ ";\n"

/-- The document `m.save` writes (line 258), as a function of the aggregated
table, the merged geometry and the list of `uuid4().hex` identifiers folium
draws, one per element in construction order: the rendered elements, then
the legend container (line 232) and the interactivity script (lines
240-256), whose map variable is the map element's generated name. -/
def report_document (t : Table) (merged : List MergedRow) (ids : List String) : String :=
  String.join ((doc_elements t merged).zipWith render_element ids) ++
  legend_html_of t ++
  js_script (elementName "map" (ids.headD ""))
    (legend_js_of t "e") (legend_js_of t "event") "Aggregate"

/-- The input-determined text preceding an element's identifier. -/
def elem_pre (e : DocElement) : String := "var " ++ e.kind ++ "_"

/-- The input-determined text following an element's identifier. -/
def elem_post (e : DocElement) : String := " = " ++ e.payload ++ ";\n"

/-- The part of the emitted script that precedes the map element id. -/
def script_pre : String :=
  "<script> window.onload = function() \x7b const map = "

/-- The part of the emitted script that follows the map element id: a
function of the inputs alone. -/
def script_post (t : Table) : String :=
  "; map.on('baselayerchange', function(e) \x7b " ++ legend_js_of t "e" ++
  " \x7d); const event = \x7b name: \"" ++ "Aggregate" ++ "\" \x7d; " ++
  legend_js_of t "event" ++ " \x7d; </script>"

/-! ### Representative points (lines 111-113)

The code reprojects the merged geometry to EPSG:3857 ("Web Mercator"), takes
the planar centroid there and converts it back to the display CRS.  EPSG:3857
is the spherical Mercator on the WGS84 equatorial radius 6378137 m; its
defining formulas (as implemented by the pyproj engine geopandas calls) are
embedded below over `ℝ`, with geographic coordinates in degrees. -/

noncomputable section

/-- Degrees to radians. -/
def radOf (d : ℝ) : ℝ := d * Real.pi / 180

/-- Radians to degrees. -/
def degOf (r : ℝ) : ℝ := r * 180 / Real.pi

/-- The sphere radius of EPSG:3857, in meters. -/
def sphereR : ℝ := 6378137

/-- EPSG:3857 forward, easting from longitude in degrees. -/
def mercX (lon : ℝ) : ℝ := sphereR * radOf lon

/-- EPSG:3857 forward, northing from latitude in degrees. -/
def mercY (lat : ℝ) : ℝ :=
  sphereR * Real.log (Real.tan (Real.pi / 4 + radOf lat / 2))

/-- EPSG:3857 inverse, longitude from easting. -/
def mercInvX (x : ℝ) : ℝ := degOf (x / sphereR)

/-- EPSG:3857 inverse, latitude from northing. -/
def mercInvY (y : ℝ) : ℝ :=
  degOf (2 * Real.arctan (Real.exp (y / sphereR)) - Real.pi / 2)

/-- Arithmetic centroid of a list of planar points. -/
def planarCentroid (pts : List (ℝ × ℝ)) : ℝ × ℝ :=
  ((pts.map Prod.fst).sum / pts.length, (pts.map Prod.snd).sum / pts.length)

/-- Lines 112-113: `merged.to_crs(epsg=3857)`, `.centroid`, `.to_crs(merged.crs)` —
project every vertex to EPSG:3857, take the arithmetic centroid in the plane,
and reproject the centroid back to the display coordinate system. -/
def centroid3857 (pts : List (ℝ × ℝ)) : ℝ × ℝ :=
  let c := planarCentroid (pts.map (fun p => (mercX p.1, mercY p.2)))
  (mercInvX c.1, mercInvY c.2)

end

/-! ### Spec-side definitions for refinement comparisons -/

/-- The matching rule claim C1 attributes to line 68, following the spec's
words: the identifier matches "Unknown" case- and whitespace-insensitively. -/
def specUnknownMatch (s : String) : Bool := lowerStr (stripWs s) == "unknown"

/-- The per-layer maximum as claim C1 describes it: computed over all rows
except those matching "Unknown" case- and whitespace-insensitively. -/
def claimedMaxVals (t : Table) (col : String) : Option Int :=
  seriesMax ((t.rows.filter (fun r => !(specUnknownMatch r.id))).map (fun r => r.cells col))

/-! ### Helper lemmas about `seriesMax` -/

theorem foldl_max_init_le (l : List Int) (b : Int) : b ≤ l.foldl max b := by
  induction l generalizing b with
  | nil => exact le_refl b
  | cons a l ih => exact le_trans (le_max_left b a) (ih (max b a))

theorem foldl_max_le_of_mem (l : List Int) (b x : Int) (hx : x ∈ l) :
    x ≤ l.foldl max b := by
  induction l generalizing b with
  | nil => cases hx
  | cons a l ih =>
      rcases List.mem_cons.mp hx with h | h
      · subst h
        exact le_trans (le_max_right b x) (foldl_max_init_le l (max b x))
      · exact ih (max b a) h

theorem foldl_max_mem (l : List Int) (b : Int) : l.foldl max b ∈ b :: l := by
  induction l generalizing b with
  | nil => exact List.mem_singleton.mpr rfl
  | cons a l ih =>
      have h := ih (max b a)
      rcases List.mem_cons.mp h with h' | h'
      · rcases max_choice b a with hm | hm
        · exact List.mem_cons.mpr (Or.inl (h'.trans hm))
        · exact List.mem_cons_of_mem _ (List.mem_cons.mpr (Or.inl (h'.trans hm)))
      · exact List.mem_cons_of_mem _ (List.mem_cons_of_mem _ h')

theorem seriesMax_spec (l : List Int) (h : l ≠ []) :
    ∃ m, seriesMax l = some m ∧ (∀ x ∈ l, x ≤ m) ∧ m ∈ l := by
  cases l with
  | nil => exact absurd rfl h
  | cons x xs =>
      refine ⟨xs.foldl max x, rfl, ?_, foldl_max_mem xs x⟩
      intro y hy
      rcases List.mem_cons.mp hy with h' | h'
      · exact h' ▸ foldl_max_init_le xs x
      · exact foldl_max_le_of_mem xs x y h'

/-! ### Claim C1 -/

/-- C1, corrected.  For every table and layer, the per-layer maximum of
line 69 is computed over exactly the rows whose identifier differs from
"Unknown" after whitespace stripping — a case-sensitive rule: every such row
(including rows named "unknown" or "UNKNOWN") contributes to the maximum,
which bounds each of them and is attained by one of them. -/
theorem C1_max_strip_case_sensitive (t : Table) (col : String) (r : Row)
    (hr : r ∈ t.rows) (hid : stripWs r.id ≠ "Unknown") :
    ∃ m, max_vals t col = some m ∧ r.cells col ≤ m ∧
      ∃ r', r' ∈ t.rows ∧ stripWs r'.id ≠ "Unknown" ∧ r'.cells col = m := by
  have hrf : r ∈ (df_no_unknown t).rows := by
    refine List.mem_filter.mpr ⟨hr, ?_⟩
    simp [hid]
  have hmemv : r.cells col ∈ (df_no_unknown t).rows.map (fun r => r.cells col) :=
    List.mem_map_of_mem _ hrf
  have hne : (df_no_unknown t).rows.map (fun r => r.cells col) ≠ [] :=
    List.ne_nil_of_mem hmemv
  obtain ⟨m, heq, hub, hmem⟩ := seriesMax_spec _ hne
  refine ⟨m, heq, hub _ hmemv, ?_⟩
  obtain ⟨r', hr'f, hcell⟩ := List.mem_map.mp hmem
  obtain ⟨hr'rows, hpred⟩ := List.mem_filter.mp hr'f
  refine ⟨r', hr'rows, ?_, hcell⟩
  simpa using hpred

/-- Row "A" of the C1 counterexample, value 1 in layer "Jan". -/
def rowA1 : Row := { id := "A", cells := fun c => if c = "Jan" then 1 else 0 }

/-- Row "unknown" of the C1 counterexample, value 100 in layer "Jan". -/
def rowU1 : Row := { id := "unknown", cells := fun c => if c = "Jan" then 100 else 0 }

/-- The C1 counterexample table. -/
def tblC1 : Table := { columns := ["Jan"], rows := [rowA1, rowU1] }

/-- C1 counterexample: on a table with a row named "unknown" holding 100 and
a regular row holding 1, the code's per-layer maximum for "Jan" is 100 — the
lower-case row is NOT excluded — while the claim's case-insensitive rule
would give 1. -/
theorem C1_counterexample :
    max_vals (withAggregate tblC1) "Jan" = some 100 ∧
    claimedMaxVals (withAggregate tblC1) "Jan" = some 1 ∧
    (some 100 : Option Int) ≠ some 1 := by decide

/-- Row "UNKNOWN" of the C1 witness table, value 100 everywhere. -/
def rowW1 : Row := { id := "UNKNOWN", cells := fun _ => 100 }

/-- Row "B" of the C1 witness table, value 1 everywhere. -/
def rowW2 : Row := { id := "B", cells := fun _ => 1 }

/-- The C1 witness table. -/
def tblW1 : Table := { columns := ["Jan"], rows := [rowW1, rowW2] }

/-- Witness for the C1 theorem at a concrete table: the row named "UNKNOWN"
satisfies the hypotheses and is therefore bounded by the computed maximum. -/
theorem C1_witness :
    (rowW1 ∈ tblW1.rows ∧ stripWs rowW1.id ≠ "Unknown") ∧
    (∃ m, max_vals tblW1 "Jan" = some m ∧ rowW1.cells "Jan" ≤ m ∧
      ∃ r', r' ∈ tblW1.rows ∧ stripWs r'.id ≠ "Unknown" ∧ r'.cells "Jan" = m) :=
  ⟨⟨List.mem_cons_self _ _, by decide⟩,
   C1_max_strip_case_sensitive tblW1 "Jan" rowW1 (List.mem_cons_self _ _) (by decide)⟩

/-! ### Claim C2 -/

/-- C2, corrected.  The colormap of lines 86-90 is built with domain
`[1, computed_max]` and no `max(1, ·)` guard: on a layer whose every
surviving value is 0 the domain degenerates to `[1, 0]` (inverted, not the
claimed `[1, 1]`); every zero-valued region still renders the white sentinel
because line 129's zero test precedes any colormap lookup. -/
theorem C2_domain_no_guard (t : Table) (col : String)
    (hne : (df_no_unknown t).rows.map (fun r => r.cells col) ≠ [])
    (hz : ∀ x ∈ (df_no_unknown t).rows.map (fun r => r.cells col), x = 0) :
    colormapOf t col = { vmin := 1, vmax := some 0 } ∧
    polygonFillColor (colormapOf t col) 0 = .white := by
  obtain ⟨m, heq, _, hmem⟩ := seriesMax_spec _ hne
  have hm0 : m = 0 := hz _ hmem
  subst hm0
  constructor
  · show (⟨1, max_vals t col⟩ : LinearColormapModel) = ⟨1, some 0⟩
    have : max_vals t col = some 0 := heq
    rw [this]
  · rfl

/-- The all-zero table of the C2 counterexample. -/
def tblZ : Table := { columns := ["Jan"], rows := [{ id := "10001", cells := fun _ => 0 }] }

/-- C2 counterexample: on a table whose only region has value 0 in every
layer, the code constructs the "Jan" colormap with domain `[1, 0]`, which
differs from the `[1, max(1, 0)] = [1, 1]` domain the claim states. -/
theorem C2_counterexample :
    colormapOf (withAggregate tblZ) "Jan" = { vmin := 1, vmax := some 0 } ∧
    ({ vmin := 1, vmax := some 0 } : LinearColormapModel) ≠
      { vmin := 1, vmax := some (max 1 0) } := by decide

/-- The witness table for C2: one row, all cells 0. -/
def tblW2 : Table := { columns := ["Jan"], rows := [{ id := "X", cells := fun _ => 0 }] }

/-- Witness for the C2 theorem at a concrete all-zero table. -/
theorem C2_witness :
    ((df_no_unknown tblW2).rows.map (fun r => r.cells "Jan") ≠ [] ∧
      ∀ x ∈ (df_no_unknown tblW2).rows.map (fun r => r.cells "Jan"), x = 0) ∧
    (colormapOf tblW2 "Jan" = { vmin := 1, vmax := some 0 } ∧
      polygonFillColor (colormapOf tblW2 "Jan") 0 = .white) :=
  ⟨⟨by decide, by decide⟩, C2_domain_no_guard tblW2 "Jan" (by decide) (by decide)⟩

/-! ### Claim C10 -/

/-- C10, confirmed.  The two "Unknown" recognizers disagree: line 68 excludes
by stripped, case-sensitive comparison while lines 168/202 use an exact
untrimmed index lookup.  A row whose identifier strips to "Unknown" without
being exactly "Unknown", in a table with no exact "Unknown" row, is excluded
from the maximum computation (it is dropped from `df_no_unknown`) while every
layer's legend reports the Unknown count as 0. -/
theorem C10_two_unknown_rules (t : Table) (layer : String) (r : Row)
    (hr : r ∈ t.rows) (hstrip : stripWs r.id = "Unknown") (hne : r.id ≠ "Unknown")
    (hnone : ∀ r' ∈ t.rows, r'.id ≠ "Unknown") :
    r ∉ (df_no_unknown t).rows ∧ unknown_count t layer = 0 := by
  constructor
  · intro hmem
    have hpred := (List.mem_filter.mp hmem).2
    simp [hstrip] at hpred
  · have hfind : t.rows.find? (fun r => r.id == "Unknown") = none := by
      refine List.find?_eq_none.mpr ?_
      intro x hx
      simp [hnone x hx]
    simp [unknown_count, hfind]

/-- The whitespace-padded Unknown row of the C10 witness. -/
def rowPad : Row := { id := " Unknown ", cells := fun _ => 7 }

/-- A regular row of the C10 witness. -/
def rowTen : Row := { id := "10001", cells := fun _ => 3 }

/-- The C10 witness table: a padded " Unknown " row and no exact "Unknown". -/
def tblW10 : Table := { columns := ["Jan"], rows := [rowTen, rowPad] }

/-- Witness for the C10 theorem at a concrete table with a padded
" Unknown " row. -/
theorem C10_witness :
    (rowPad ∈ tblW10.rows ∧ stripWs rowPad.id = "Unknown" ∧ rowPad.id ≠ "Unknown" ∧
      ∀ r' ∈ tblW10.rows, r'.id ≠ "Unknown") ∧
    (rowPad ∉ (df_no_unknown tblW10).rows ∧ unknown_count tblW10 "Jan" = 0) :=
  ⟨⟨List.mem_cons_of_mem _ (List.mem_cons_self _ _), by decide, by decide, by decide⟩,
   C10_two_unknown_rules tblW10 "Jan" rowPad
     (List.mem_cons_of_mem _ (List.mem_cons_self _ _)) (by decide) (by decide) (by decide)⟩

/-! ### Claim C3 -/

/-- C3, confirmed.  When the input table lacks an "Aggregate" column, the
derived "Aggregate" value of every row equals the row-wise sum over the
period columns, i.e. over all columns other than "Unknown" and "Aggregate"
(the two coincide because "Aggregate" is absent). -/
theorem C3_aggregate_row_sum (t : Table) (h : "Aggregate" ∉ t.columns)
    (r : Row) (hr : r ∈ t.rows) :
    ∃ r', r' ∈ (withAggregate t).rows ∧ r'.id = r.id ∧
      r'.cells "Aggregate" = ((monthsWithAgg t).map r.cells).sum := by
  have hc : t.columns.contains "Aggregate" = false := by
    rw [Bool.eq_false_iff]
    intro hcon
    exact h (List.elem_iff.mp hcon)
  have hmm : monthsNoAgg t = monthsWithAgg t := by
    unfold monthsNoAgg monthsWithAgg
    refine List.filter_congr ?_
    intro c hcmem
    have hca : (c == "Aggregate") = false := by
      rw [beq_eq_false_iff_ne]
      intro he
      exact h (he ▸ hcmem)
    simp [hca]
  refine ⟨{ id := r.id,
            cells := fun c =>
              if c = "Aggregate" then ((monthsNoAgg t).map r.cells).sum else r.cells c },
          ?_, rfl, ?_⟩
  · unfold withAggregate
    rw [hc]
    exact List.mem_map_of_mem _ hr
  · simp [hmm]

/-- The witness table for C3: two period columns, no "Aggregate". -/
def tblW3 : Table :=
  { columns := ["Jan", "Feb"]
    rows := [{ id := "10001", cells := fun c => if c = "Jan" then 5 else if c = "Feb" then 3 else 0 }] }

/-- The row of the C3 witness table. -/
def rowW3 : Row :=
  { id := "10001", cells := fun c => if c = "Jan" then 5 else if c = "Feb" then 3 else 0 }

/-- Witness for the C3 theorem: the derived Aggregate of the concrete row is
the sum of its period cells. -/
theorem C3_witness :
    ("Aggregate" ∉ tblW3.columns ∧ rowW3 ∈ tblW3.rows) ∧
    (∃ r', r' ∈ (withAggregate tblW3).rows ∧ r'.id = rowW3.id ∧
      r'.cells "Aggregate" = ((monthsWithAgg tblW3).map rowW3.cells).sum) :=
  ⟨⟨by decide, List.mem_cons_self _ _⟩,
   C3_aggregate_row_sum tblW3 (by decide) rowW3 (List.mem_cons_self _ _)⟩

/-! ### Claim C4 -/

/-- Every element the merge emits for a feature carries that feature. -/
theorem mergeLeft_entry_feature (t : Table) (g : Feature) (mr : MergedRow)
    (hmem : mr ∈ (if (t.rows.filter (fun r => r.id == astypeStr g.zipnum)).isEmpty then
        [{ feature := g, cells := fun _ => (0 : Int) }]
      else
        (t.rows.filter (fun r => r.id == astypeStr g.zipnum)).map
          (fun r => { feature := g, cells := r.cells }))) :
    mr.feature = g := by
  by_cases hemp : (t.rows.filter (fun r => r.id == astypeStr g.zipnum)).isEmpty = true
  · rw [if_pos hemp] at hmem
    rw [List.mem_singleton.mp hmem]
  · rw [if_neg hemp] at hmem
    obtain ⟨r, _, hEq⟩ := List.mem_map.mp hmem
    rw [← hEq]

/-- C4, confirmed.  The merge of lines 97-100 is a left, geometry-preserving
join: every feature of the geometry collection yields at least one merged
row, and a feature whose ZIPNUM string matches no table row gets 0 in every
column, so that every layer renders it with label 0 and the white zero fill. -/
theorem C4_left_join_zero_fill (gdf : List Feature) (t : Table) (f : Feature)
    (hf : f ∈ gdf) :
    (∃ mr ∈ mergeLeft gdf t, mr.feature = f) ∧
    ((∀ r ∈ t.rows, r.id ≠ astypeStr f.zipnum) →
      ∀ mr ∈ mergeLeft gdf t, mr.feature = f →
        (∀ c, mr.cells c = 0) ∧
        ∀ layer, renderLayer t [mr] layer =
          [{ zip := astypeStr f.zipnum, fill := .white, label := 0 }]) := by
  constructor
  · by_cases hemp : (t.rows.filter (fun r => r.id == astypeStr f.zipnum)).isEmpty = true
    · refine ⟨{ feature := f, cells := fun _ => 0 }, ?_, rfl⟩
      refine List.mem_flatMap.mpr ⟨f, hf, ?_⟩
      rw [if_pos hemp]
      exact List.mem_singleton.mpr rfl
    · have hne := List.isEmpty_eq_false.mp (Bool.eq_false_iff.mpr hemp)
      obtain ⟨r, hrmem⟩ := List.exists_mem_of_ne_nil _ hne
      refine ⟨{ feature := f, cells := r.cells }, ?_, rfl⟩
      refine List.mem_flatMap.mpr ⟨f, hf, ?_⟩
      rw [if_neg hemp]
      exact List.mem_map_of_mem _ hrmem
  · intro hnomatch mr hmr hfeat
    have hfilter : t.rows.filter (fun r => r.id == astypeStr f.zipnum) = [] := by
      refine List.filter_eq_nil_iff.mpr ?_
      intro r hrmem
      rw [Bool.not_eq_true, beq_eq_false_iff_ne]
      exact hnomatch r hrmem
    obtain ⟨g, hg, hmem⟩ := List.mem_flatMap.mp hmr
    have hgf : g = f := (mergeLeft_entry_feature t g mr hmem).symm.trans hfeat
    subst hgf
    rw [if_pos (by rw [hfilter]; rfl)] at hmem
    have hzero : mr = { feature := g, cells := fun _ => 0 } := List.mem_singleton.mp hmem
    subst hzero
    exact ⟨fun _ => rfl, fun layer => by simp [renderLayer, polygonFillColor, hfeat]⟩

/-- The geometry feature of the C4 witness, matching no table row. -/
def featW4 : Feature := { zipnum := .pstr "99999", tag := 0 }

/-- The table of the C4 witness. -/
def tblW4 : Table := { columns := ["Jan"], rows := [{ id := "10001", cells := fun _ => 5 }] }

/-- Witness for the C4 theorem: the unmatched feature "99999" is present in
the merge and carries zeros. -/
theorem C4_witness :
    featW4 ∈ [featW4] ∧
    ((∃ mr ∈ mergeLeft [featW4] tblW4, mr.feature = featW4) ∧
    ((∀ r ∈ tblW4.rows, r.id ≠ astypeStr featW4.zipnum) →
      ∀ mr ∈ mergeLeft [featW4] tblW4, mr.feature = featW4 →
        (∀ c, mr.cells c = 0) ∧
        ∀ layer, renderLayer tblW4 [mr] layer =
          [{ zip := astypeStr featW4.zipnum, fill := .white, label := 0 }])) :=
  ⟨List.mem_cons_self _ _, C4_left_join_zero_fill [featW4] tblW4 featW4 (List.mem_cons_self _ _)⟩

/-! ### Claim C5 -/

/-- C5, corrected.  The loading phase raises the underlying libraries'
errors, not the spec's `InputFormatError`: the `ZIPNUM` column access of
line 54 raises `KeyError("ZIPNUM")` when the geometry lacks the identifying
property, a malformed tabular file fails at line 50 with the parser's error,
and no execution of the loader ever produces an `InputFormatError`. -/
theorem C5_load_error_types (csv : CsvData) (geo : GeoFile)
    (hz : "ZIPNUM" ∉ geo.columns) :
    loadError (some csv) geo = some (.keyError "ZIPNUM") ∧
    loadError none geo = some .parserError ∧
    ∀ c g, loadError c g ≠ some PyError.inputFormatError := by
  refine ⟨?_, rfl, ?_⟩
  · simp [loadError, loadInputs, hz]
  · intro c g
    cases c with
    | none => simp [loadError, loadInputs]
    | some d =>
        by_cases hg : "ZIPNUM" ∈ g.columns
        · simp [loadError, loadInputs, hg]
        · simp [loadError, loadInputs, hg]

/-- A well-formed CSV for the C5 examples. -/
def csvOk : CsvData := { rawIndex := ["10001"], columns := ["Jan"], values := [fun _ => 5] }

/-- A geometry file lacking the `ZIPNUM` property. -/
def geoNoZip : GeoFile := { columns := ["geometry"], features := [] }

/-- C5 counterexample: with a geometry collection lacking `ZIPNUM`, loading
fails with `KeyError("ZIPNUM")`, which is not the `InputFormatError` the
claim names. -/
theorem C5_counterexample :
    loadError (some csvOk) geoNoZip = some (.keyError "ZIPNUM") ∧
    some (PyError.keyError "ZIPNUM") ≠ some PyError.inputFormatError := by decide

/-- Witness for the C5 theorem at the concrete malformed inputs. -/
theorem C5_witness :
    ("ZIPNUM" ∉ geoNoZip.columns) ∧
    (loadError (some csvOk) geoNoZip = some (.keyError "ZIPNUM") ∧
      loadError none geoNoZip = some .parserError ∧
      ∀ c g, loadError c g ≠ some PyError.inputFormatError) :=
  ⟨by decide, C5_load_error_types csvOk geoNoZip (by decide)⟩

/-! ### Claim C6 -/

/-- C6, corrected (positive half).  The only normalization the code applies
is string conversion: a table row joins a geometry feature exactly when the
row's (inference-mangled) index string equals the feature's `astype(str)`
form, in which case the merge propagates the row's cells to that feature. -/
theorem C6_join_on_exact_strings (gdf : List Feature) (t : Table) (f : Feature) (r : Row)
    (hf : f ∈ gdf) (hr : r ∈ t.rows) (heq : r.id = astypeStr f.zipnum) :
    ∃ mr ∈ mergeLeft gdf t, mr.feature = f ∧ ∀ c, mr.cells c = r.cells c := by
  have hrf : r ∈ t.rows.filter (fun r => r.id == astypeStr f.zipnum) := by
    refine List.mem_filter.mpr ⟨hr, ?_⟩
    simp [heq]
  have hemp : (t.rows.filter (fun r => r.id == astypeStr f.zipnum)).isEmpty = false :=
    List.isEmpty_eq_false.mpr (List.ne_nil_of_mem hrf)
  refine ⟨{ feature := f, cells := r.cells }, ?_, rfl, fun _ => rfl⟩
  refine List.mem_flatMap.mpr ⟨f, hf, ?_⟩
  rw [if_neg (by rw [hemp]; exact Bool.false_ne_true)]
  exact List.mem_map_of_mem _ hrf

/-- The CSV of the C6 leading-zeros counterexample: its index column is all
digits, so pandas parses it as int64. -/
def csvLZ : CsvData := { rawIndex := ["01001"], columns := ["Jan"], values := [fun _ => 5] }

/-- The geometry feature whose ZIPNUM is the string "01001". -/
def featLZ : Feature := { zipnum := .pstr "01001", tag := 0 }

/-- The CSV of the C6 whitespace counterexample. -/
def csvWS : CsvData := { rawIndex := ["10001"], columns := ["Jan"], values := [fun _ => 5] }

/-- The geometry feature whose ZIPNUM is " 10001", differing from the table
row only in surrounding whitespace. -/
def featWS : Feature := { zipnum := .pstr " 10001", tag := 1 }

/-- C6 counterexample: the CSV row "01001" is stored under the identifier
"1001" (pandas reads the all-digit index as int64 and line 55 prints it
back), the geometry keeps "01001" (no trimming or zero-padding), and the
join misses: the region renders 0 instead of the row's value 5.  Likewise a
feature differing only in surrounding whitespace (" 10001" vs "10001") does
not match. -/
theorem C6_counterexample :
    ((withAggregate (readTable csvLZ)).rows.map (fun r => (r.id, r.cells "Jan")) = [("1001", 5)]) ∧
    astypeStr featLZ.zipnum = "01001" ∧
    ((mergeLeft [featLZ] (withAggregate (readTable csvLZ))).map (fun mr => mr.cells "Jan") = [0]) ∧
    ((mergeLeft [featWS] (withAggregate (readTable csvWS))).map (fun mr => mr.cells "Jan") = [0]) := by
  decide

/-- The matching feature of the C6 witness. -/
def featW6 : Feature := { zipnum := .pstr "10001", tag := 0 }

/-- The matching row of the C6 witness. -/
def rowW6 : Row := { id := "10001", cells := fun _ => 5 }

/-- The table of the C6 witness. -/
def tblW6 : Table := { columns := ["Jan"], rows := [rowW6] }

/-- Witness for the C6 theorem: a row and a feature whose converted strings
are equal do join, and the cells propagate. -/
theorem C6_witness :
    (featW6 ∈ [featW6] ∧ rowW6 ∈ tblW6.rows ∧ rowW6.id = astypeStr featW6.zipnum) ∧
    (∃ mr ∈ mergeLeft [featW6] tblW6, mr.feature = featW6 ∧ ∀ c, mr.cells c = rowW6.cells c) :=
  ⟨⟨List.mem_cons_self _ _, List.mem_cons_self _ _, by decide⟩,
   C6_join_on_exact_strings [featW6] tblW6 featW6 rowW6
     (List.mem_cons_self _ _) (List.mem_cons_self _ _) (by decide)⟩

/-! ### Claim C7 -/

/-- C7, confirmed.  For every merged region and every layer, the rendered
polygon's fill is the white sentinel exactly when the layer's value for the
region is 0; any nonzero value is colored through the layer's colormap
(domain `[1, max_vals]`) applied at that value. -/
theorem C7_white_iff_zero (t : Table) (merged : List MergedRow) (layer : String)
    (reg : RenderedRegion) (hreg : reg ∈ renderLayer t merged layer) :
    (reg.fill = .white ↔ reg.label = 0) ∧
    (reg.label ≠ 0 → reg.fill = .scaled 1 (max_vals t layer) reg.label) := by
  obtain ⟨mr, _, hEq⟩ := List.mem_map.mp hreg
  subst hEq
  by_cases hv : mr.cells layer = 0
  · constructor
    · simp [polygonFillColor, hv]
    · intro hnz
      exact absurd hv hnz
  · constructor
    · simp [polygonFillColor, hv, colormapOf]
    · intro _
      simp [polygonFillColor, hv, colormapOf]

/-- The feature of the C7 witness. -/
def featW7 : Feature := { zipnum := .pstr "10001", tag := 0 }

/-- The table of the C7 witness: one region with value 3. -/
def tblW7 : Table := { columns := ["Jan"], rows := [{ id := "10001", cells := fun _ => 3 }] }

/-- The rendered region the C7 witness exhibits. -/
def regW7 : RenderedRegion := { zip := "10001", fill := .scaled 1 (some 3) 3, label := 3 }

/-- Witness for the C7 theorem: the concrete rendered region with value 3 is
not white and carries the colormap color at 3. -/
theorem C7_witness :
    (regW7 ∈ renderLayer (withAggregate tblW7) (mergeLeft [featW7] (withAggregate tblW7)) "Jan") ∧
    ((regW7.fill = .white ↔ regW7.label = 0) ∧
      (regW7.label ≠ 0 →
        regW7.fill = .scaled 1 (max_vals (withAggregate tblW7) "Jan") regW7.label)) :=
  ⟨by decide,
   C7_white_iff_zero (withAggregate tblW7) (mergeLeft [featW7] (withAggregate tblW7)) "Jan"
     regW7 (by decide)⟩

/-! ### Claim C9 -/

/-- C9, corrected.  The saved document is a deterministic function of the
two inputs together with the element identifiers folium draws, and of
nothing else: it factors into segments that depend on the inputs alone,
interleaved with the generated element names — each element's identifier
confined to its own hole (`elem_pre`/`elem_post` around each drawn id, and
the map element's name inside the legend script).  Hence two runs on
identical inputs agree everywhere except in the generated identifiers, and
two runs that draw the same identifiers agree byte for byte. -/
theorem C9_document_factors (t : Table) (merged : List MergedRow) (ids : List String) :
    report_document t merged ids =
      String.join ((doc_elements t merged).zipWith
        (fun e u => elem_pre e ++ u ++ elem_post e) ids) ++
      (legend_html_of t ++
        (script_pre ++ (elementName "map" (ids.headD "") ++ script_post t))) := by
  have hre : render_element = fun e u => elem_pre e ++ u ++ elem_post e := by
    funext e u
    unfold render_element elem_pre elem_post elementName
    simp only [String.append_assoc]
  unfold report_document js_script script_pre script_post
  rw [hre]
  simp only [String.append_assoc]

/-- The table of the C9 counterexample. -/
def tblC9 : Table := { columns := ["Jan"], rows := [{ id := "10001", cells := fun _ => 0 }] }

/-- The geometry feature of the C9 counterexample. -/
def featC9 : Feature := { zipnum := .pstr "10001", tag := 0 }

/-- C9 counterexample: two runs of the pipeline on the same inputs that draw
different element identifiers — here the two runs differ only in the
identifier of one per-region GeoJson element — emit different bytes, so the
artifact is not a deterministic function of the two input files alone. -/
theorem C9_counterexample :
    report_document tblC9 (mergeLeft [featC9] tblC9)
        ["i0", "i1", "i2", "i3", "i4", "i5", "i6", "i7", "i8", "i9", "i10", "i11", "i12"] ≠
      report_document tblC9 (mergeLeft [featC9] tblC9)
        ["i0", "i1", "i2", "x3", "i4", "i5", "i6", "i7", "i8", "i9", "i10", "i11", "i12"] := by
  decide

/-! ### Claim C8 -/

/-- Exact value of the tangent at 75 degrees, the angle Web Mercator maps
latitude 60 through. -/
theorem tan_pi4_pi6 : Real.tan (Real.pi / 4 + Real.pi / 6) = 2 + Real.sqrt 3 := by
  have h2 : (0:ℝ) < Real.sqrt 2 := Real.sqrt_pos.mpr (by norm_num)
  have h3sq : Real.sqrt 3 ^ 2 = 3 := Real.sq_sqrt (by norm_num)
  have h31 : (1:ℝ) < Real.sqrt 3 := (Real.lt_sqrt (by norm_num)).mpr (by norm_num)
  rw [Real.tan_eq_sin_div_cos, Real.sin_add, Real.cos_add,
      Real.sin_pi_div_four, Real.cos_pi_div_four, Real.sin_pi_div_six, Real.cos_pi_div_six]
  have hD : Real.sqrt 2 / 2 * (Real.sqrt 3 / 2) - Real.sqrt 2 / 2 * (1 / 2) ≠ 0 := by
    have hform : Real.sqrt 2 / 2 * (Real.sqrt 3 / 2) - Real.sqrt 2 / 2 * (1 / 2)
        = Real.sqrt 2 * (Real.sqrt 3 - 1) / 4 := by ring
    rw [hform]
    have hpos : 0 < Real.sqrt 2 * (Real.sqrt 3 - 1) := mul_pos h2 (by linarith)
    exact ne_of_gt (div_pos hpos (by norm_num))
  rw [div_eq_iff hD]
  nlinarith [h3sq, sq_nonneg (Real.sqrt 2), sq_nonneg (Real.sqrt 3),
    Real.sq_sqrt (show (0:ℝ) ≤ 2 by norm_num)]

/-- Numeric lower bound on `log (2 + √3)`, strictly above π/3. -/
theorem log_two_add_sqrt3_gt : (21:ℝ)/20 < Real.log (2 + Real.sqrt 3) := by
  have h31 : (1:ℝ) < Real.sqrt 3 := (Real.lt_sqrt (by norm_num)).mpr (by norm_num)
  have hpos : (0:ℝ) < 2 + Real.sqrt 3 := by linarith
  rw [Real.lt_log_iff_exp_lt hpos]
  have h20 : (Real.exp (21/20))^20 = Real.exp 21 := by
    rw [← Real.exp_nat_mul]; norm_num
  have h21 : Real.exp 21 = (Real.exp 1)^21 := by
    rw [← Real.exp_nat_mul]; norm_num
  have he : Real.exp 1 < 2.7182818286 := Real.exp_one_lt_d9
  have hpow : (Real.exp 1)^21 < (2.7182818286:ℝ)^21 :=
    pow_lt_pow_left₀ he (le_of_lt (Real.exp_pos 1)) (by norm_num)
  have h3l : (1.732:ℝ) < Real.sqrt 3 := (Real.lt_sqrt (by norm_num)).mpr (by norm_num)
  have hb : (3.732:ℝ) < 2 + Real.sqrt 3 := by linarith
  have hnum : (2.7182818286:ℝ)^21 < (3.732:ℝ)^20 := by norm_num
  have h2pow : (3.732:ℝ)^20 < (2 + Real.sqrt 3)^20 :=
    pow_lt_pow_left₀ hb (by norm_num) (by norm_num)
  have hlt : (Real.exp (21/20))^20 < (2 + Real.sqrt 3)^20 := by
    rw [h20, h21]; linarith
  exact lt_of_pow_lt_pow_left₀ 20 (by positivity) hlt

/-- C8 counterexample: the planar projection the code uses (EPSG:3857, line
112) is not distance-preserving.  Along the zero meridian, the planar
distance from the equator to latitude 60° is `mercY 60 - mercY 0`, while the
distance on the sphere — which any equidistant projection preserves — is
`sphereR * (radOf 60 - radOf 0)`; the two differ (the Mercator ordinate is
`R·log(2+√3) > R·21/20 > R·π/3`).  Hence the representative point is not
computed through a "distance-preserving (equal-area/equal-distance)"
coordinate system as the claim states. -/
theorem C8_counterexample :
    mercY 60 - mercY 0 ≠ sphereR * (radOf 60 - radOf 0) := by
  have hY0 : mercY 0 = 0 := by
    unfold mercY radOf
    have harg : Real.pi / 4 + 0 * Real.pi / 180 / 2 = Real.pi / 4 := by ring
    rw [harg, Real.tan_pi_div_four, Real.log_one, mul_zero]
  have harg : Real.pi / 4 + radOf 60 / 2 = Real.pi / 4 + Real.pi / 6 := by
    unfold radOf; ring
  have hY60 : mercY 60 = sphereR * Real.log (2 + Real.sqrt 3) := by
    unfold mercY
    rw [harg, tan_pi4_pi6]
  have hrad : radOf 60 - radOf 0 = Real.pi / 3 := by unfold radOf; ring
  rw [hY0, hY60, hrad, sub_zero]
  intro hEqn
  have hR : (0:ℝ) < sphereR := by unfold sphereR; norm_num
  have hlog : Real.log (2 + Real.sqrt 3) = Real.pi / 3 :=
    mul_left_cancel₀ (ne_of_gt hR) hEqn
  have hgt : Real.pi / 3 < 21/20 := by
    have := Real.pi_lt_d2
    linarith
  have hlt := log_two_add_sqrt3_gt
  linarith

/-- C8, corrected.  The representative point equals the arithmetic centroid
taken in the planar EPSG:3857 Web Mercator system (a conformal projection
that preserves neither distances nor areas) and reprojected back to the
display coordinate system; the reprojection is an exact inverse of the
projection on latitudes strictly between -90° and 90°, so the representative
point of a degenerate one-vertex region is the vertex itself. -/
theorem C8_webmercator_roundtrip (lon lat : ℝ) (h1 : -90 < lat) (h2 : lat < 90) :
    centroid3857 [(lon, lat)] = (lon, lat) := by
  have hR : (0:ℝ) < sphereR := by unfold sphereR; norm_num
  have hpi : (0:ℝ) < Real.pi := Real.pi_pos
  have hl1 : -(Real.pi / 2) < radOf lat := by
    have hint : (0:ℝ) < (lat + 90) * Real.pi := mul_pos (by linarith) hpi
    unfold radOf
    nlinarith [hint]
  have hl2 : radOf lat < Real.pi / 2 := by
    have hint : (0:ℝ) < (90 - lat) * Real.pi := mul_pos (by linarith) hpi
    unfold radOf
    nlinarith [hint]
  have hth1 : (0:ℝ) < Real.pi / 4 + radOf lat / 2 := by linarith
  have hth2 : Real.pi / 4 + radOf lat / 2 < Real.pi / 2 := by linarith
  have htan : 0 < Real.tan (Real.pi / 4 + radOf lat / 2) :=
    Real.tan_pos_of_pos_of_lt_pi_div_two hth1 hth2
  unfold centroid3857 planarCentroid
  simp only [List.map_cons, List.map_nil, List.sum_cons, List.sum_nil, List.length_cons,
    List.length_nil, add_zero, zero_add, Nat.cast_one]
  rw [Prod.mk.injEq]
  constructor
  · unfold mercInvX mercX degOf radOf
    rw [div_one]
    rw [mul_div_cancel_left₀ _ (ne_of_gt hR)]
    field_simp
  · unfold mercInvY mercY degOf
    rw [div_one]
    rw [mul_div_cancel_left₀ _ (ne_of_gt hR)]
    rw [Real.exp_log htan]
    rw [Real.arctan_tan (by linarith) hth2]
    have harg2 : 2 * (Real.pi / 4 + radOf lat / 2) - Real.pi / 2 = radOf lat := by ring
    rw [harg2]
    unfold radOf
    field_simp

/-- Witness for the C8 theorem at the origin: projecting (0°, 0°) to
EPSG:3857, taking the centroid and reprojecting returns (0°, 0°). -/
theorem C8_witness :
    (-90 < (0:ℝ) ∧ (0:ℝ) < 90) ∧ centroid3857 [((0:ℝ), (0:ℝ))] = (0, 0) :=
  ⟨⟨by norm_num, by norm_num⟩, C8_webmercator_roundtrip 0 0 (by norm_num) (by norm_num)⟩

end ExtReports
